import Mathlib

/-!
Verification model of the DiskIO class of xutyxd/diskio
(src/unnamed/part_000, together with src/common/fs-extends.ts).

The class manages a reserved folder: a sentinel file (diskio.dat) whose
byte length is resized so that the OS-reported folder usage equals the
configured capacity, block-chunked read/write against Node FileHandles,
and a UUID-sharded namespace with cascading directory cleanup on delete.

Shallow embedding conventions:
- file contents are lists of bytes (Nat);
- Node's fs semantics are embedded where the class calls into them:
  - fs.truncate / fs.truncateSync clamp a negative length to 0
    (Node fs documentation: "If len is negative then 0 will be used"),
    embedded via Int.toNat;
  - FileHandle.read / FileHandle.write validate the buffer offset and
    length (ERR_OUT_OF_RANGE when offset exceeds the buffer length or
    length exceeds the remaining buffer capacity) and are embedded as
    Except-valued functions;
- du-reported folder usage is split into the sentinel's size and the
  size of everything else (`real`), since the code only ever reads the
  total and the sentinel size.
-/

namespace DiskIOModel

abbrev Byte := Nat

abbrev FileData := List Byte

/-- Math.ceil (a / b) on naturals, as used for the chunk counts. -/
def ceilDiv (a b : Nat) : Nat := (a + b - 1) / b

/-- Overwrite `file` with `bytes` starting at byte position `p`,
zero-filling any gap when `p` lies past the end of the file (the POSIX
behaviour of writing past EOF that Node FileHandle.write exposes). -/
def fileSplice (file bytes : FileData) (p : Nat) : FileData :=
  file.take p ++ List.replicate (p - file.length) 0 ++ bytes ++
    file.drop (p + bytes.length)

/-- Node FileHandle.write(buffer, offset, length, position): validates
offset against the buffer length and length against the remaining buffer
capacity (ERR_OUT_OF_RANGE), rejects a negative length, and otherwise
writes buffer[offset .. offset+length) at file position `pos`. -/
def fhWrite (file data : FileData) (offset : Nat) (length : Int)
    (pos : Nat) : Except String FileData :=
  if (offset : Int) > (data.length : Int) then
    .error "offset out of range"
  else if length > (data.length : Int) - (offset : Int) then
    .error "length out of range"
  else if length < 0 then
    .error "length out of range"
  else
    .ok (fileSplice file ((data.drop offset).take length.toNat) pos)

/-- Node FileHandle.read(buffer, offset, length, position): validates
offset/length against the destination buffer (ERR_OUT_OF_RANGE), rejects
a negative length, and otherwise copies up to `length` bytes of `file`
starting at file position `pos` into the buffer at `offset` (short read
when the file ends first). -/
def fhRead (buffer file : FileData) (offset : Nat) (length : Int)
    (pos : Nat) : Except String FileData :=
  if (offset : Int) > (buffer.length : Int) then
    .error "offset out of range"
  else if length > (buffer.length : Int) - (offset : Int) then
    .error "length out of range"
  else if length < 0 then
    .error "length out of range"
  else
    .ok (fileSplice buffer ((file.drop pos).take length.toNat) offset)

/-- DiskIO.write chunk-size formula: the JS expression
`this.optimal > data.length - bufferStart ? data.length - bufferStart :
this.optimal`, computed in Int because the JS subtraction can go
negative. -/
def bytesToWrite (opt dataLen bufferStart : Nat) : Int :=
  if (opt : Int) > (dataLen : Int) - (bufferStart : Int) then
    (dataLen : Int) - (bufferStart : Int)
  else (opt : Int)

/-- DiskIO.read chunk-size formula: the JS expression
`bufferStart + this.optimal > size ? size - bufferStart : this.optimal`
(`size` is the file size), computed in Int. -/
def bytesToRead (opt fileSize bufferStart : Nat) : Int :=
  if (bufferStart : Int) + (opt : Int) > (fileSize : Int) then
    (fileSize : Int) - (bufferStart : Int)
  else (opt : Int)

/-- The while-loop of DiskIO.write: `count` chunks remain, the next one
has index `index`; each chunk calls fhWrite with the same value
`position + index * optimal` as buffer offset and as file position,
exactly as the source does. -/
def writeChunks (opt : Nat) (data : FileData) (position : Nat) :
    Nat → Nat → FileData → Except String FileData
  | 0, _, file => .ok file
  | count + 1, index, file =>
    match fhWrite file data (position + index * opt)
        (bytesToWrite opt data.length (position + index * opt))
        (position + index * opt) with
    | .error e => .error e
    | .ok file2 => writeChunks opt data position count (index + 1) file2

/-- The while-loop of DiskIO.read, reading into the allocated buffer. -/
def readChunks (opt : Nat) (file : FileData) (start : Nat) :
    Nat → Nat → FileData → Except String FileData
  | 0, _, buffer => .ok buffer
  | count + 1, index, buffer =>
    match fhRead buffer file (start + index * opt)
        (bytesToRead opt file.length (start + index * opt))
        (start + index * opt) with
    | .error e => .error e
    | .ok buffer2 => readChunks opt file start count (index + 1) buffer2

/-- DiskIO.allocate: reads the sentinel size as the remaining budget,
fails when the requested size exceeds it, otherwise truncates the
sentinel down by exactly `size` bytes. -/
def allocate (sent size : Nat) : Except String Nat :=
  if size > sent then .error "The size is greater than the available size"
  else .ok (sent - size)

/-- DiskIO.write: first allocate(data.length) against the sentinel, then
ceil(data.length / optimal) sequential chunk writes. The returned Nat is
the sentinel size after the call: the sentinel stays charged even when a
chunk write fails, because allocate has already truncated it. -/
def write (opt sent : Nat) (file data : FileData) (position : Nat) :
    Nat × Except String FileData :=
  match allocate sent data.length with
  | .error e => (sent, .error e)
  | .ok sent2 =>
    (sent2, writeChunks opt data position (ceilDiv data.length opt) 0 file)

/-- DiskIO.read: allocates a zero buffer of end - start bytes and fills
it with ceil((end - start) / optimal) sequential chunk reads. -/
def read (opt : Nat) (file : FileData) (start endPos : Nat) :
    Except String FileData :=
  readChunks opt file start (ceilDiv (endPos - start) opt) 0
    (List.replicate (endPos - start) 0)

/-- The reservation-relevant state of the managed folder: `real` is the
du-reported usage of everything except the sentinel, `sent` the sentinel
file's size, `sentExists` whether the sentinel file exists. -/
structure RState where
  real : Nat
  sent : Nat
  sentExists : Bool
  deriving DecidableEq

/-- DiskIO.stabilize(expected): creates the sentinel at zero length if
absent, then computes difference = expected - folderUsage + sentinelSize
and truncates the sentinel to that length; Node's truncate clamps a
negative length to 0 (embedded by Int.toNat). -/
def stabilize (expected : Nat) (s : RState) : RState :=
  let sent0 : Nat := if s.sentExists then s.sent else 0
  let folderUsage : Nat := s.real + sent0
  let difference : Int :=
    (expected : Int) - (folderUsage : Int) + (sent0 : Int)
  { real := s.real, sent := difference.toNat, sentExists := true }

/-- The record returned by DiskIO.information.diskio. -/
structure Report where
  size : Int
  used : Int
  available : Int
  capacity : Int
  deriving DecidableEq

/-- DiskIO.information.diskio: size = RESERVED_SIZE - optimal,
available = sentinel size, used = du folder usage - available,
capacity = Math.round(100 - (used / size) * 100); every field is
recomputed from the current state. -/
def informationDiskio (C B : Nat) (s : RState) : Report :=
  let size : Int := (C : Int) - (B : Int)
  let available : Int := (s.sent : Int)
  let used : Int := ((s.real + s.sent : Nat) : Int) - available
  { size := size, used := used, available := available,
    capacity := round ((100 : ℚ) - ((used : ℚ) / (size : ℚ)) * 100) }

/-- One public mutation of the folder footprint: create grows the
non-sentinel du usage by some metadata amount, delete shrinks it; both
end by re-running stabilize(RESERVED_SIZE), exactly as DiskIO.create and
DiskIO.delete do. -/
inductive Op
  | create (growth : Nat)
  | delete (shrink : Nat)

def applyOp (C : Nat) (s : RState) : Op → RState
  | .create g => stabilize C { s with real := s.real + g }
  | .delete d => stabilize C { s with real := s.real - d }

def runOps (C : Nat) (s : RState) : List Op → RState
  | [] => s
  | op :: rest => runOps C (applyOp C s op) rest

/-!
Namespace model: paths are segment lists relative to the managed folder
root; the folder tree is the explicit list of file paths and directory
paths (mkdir recursive creates every level explicitly, so readdir's
immediate children are exactly the recorded entries one segment longer).
-/

abbrev Path := List String

structure FS where
  files : List Path
  dirs : List Path
  deriving DecidableEq

/-- readdir(parent) lists `p` when `p` is one segment below `parent`. -/
def isChildOf (parent p : Path) : Prop :=
  p.length = parent.length + 1 ∧ p.take parent.length = parent

instance (parent p : Path) : Decidable (isChildOf parent p) :=
  inferInstanceAs (Decidable (_ ∧ _))

/-- readdir(parent).length !== 0 in the delete walk. -/
def hasEntries (fs : FS) (parent : Path) : Prop :=
  (∃ p ∈ fs.files, isChildOf parent p) ∨ (∃ p ∈ fs.dirs, isChildOf parent p)

instance (fs : FS) (parent : Path) : Decidable (hasEntries fs parent) :=
  inferInstanceAs (Decidable (_ ∨ _))

def removeDir (fs : FS) (d : Path) : FS :=
  { fs with dirs := fs.dirs.filter (fun p => decide (p ≠ d)) }

def removeFile (fs : FS) (f : Path) : FS :=
  { fs with files := fs.files.filter (fun p => decide (p ≠ f)) }

/-- Observable effects of DiskIO.delete, in the order the code issues
them: the handle close, the unlink of the leaf, then each rmdir. -/
inductive FsEvent
  | close
  | unlink (p : Path)
  | rmdir (p : Path)
  deriving DecidableEq

/-- The while (copy.pop()) loop of DiskIO.delete, fed with the name's
segments reversed so that the head is the popped last element. A popped
empty-string segment is falsy in JS and stops the loop, as does popping
from an empty array; otherwise the loop reads the parent directory that
remains after the pop, stops at the first non-empty one, and removes
empty ones as it walks up. Returns the state and the removed
directories in removal order. -/
def walkUp (fs : FS) : List String → FS × List Path
  | [] => (fs, [])
  | seg :: rest =>
    if seg = "" then (fs, [])
    else if hasEntries fs rest.reverse then (fs, [])
    else
      let out := walkUp (removeDir fs rest.reverse) rest
      (out.1, rest.reverse :: out.2)

/-- DiskIO.delete(fh, name): close the handle, unlink the leaf file,
then walk the name's segments upward pruning empty directories. -/
def delete (fs : FS) (name : Path) : FS × List FsEvent :=
  let fs1 := removeFile fs name
  let walked := walkUp fs1 name.reverse
  (walked.1,
    FsEvent.close :: FsEvent.unlink name :: walked.2.map FsEvent.rmdir)

/-- JS String.prototype.split('/') over the characters of the string:
split at every slash, keeping empty pieces (the piece collected so far
is emitted at each separator and at the end). -/
def splitChars : List Char → List Char → List String
  | [], acc => [String.mk acc.reverse]
  | c :: rest, acc =>
    if c = '/' then String.mk acc.reverse :: splitChars rest []
    else splitChars rest (c :: acc)

def splitSegs (name : String) : List String :=
  splitChars name.toList []

/-- name.split('/').filter(Boolean): the empty string is the only falsy
value produced by the split. -/
def cleanName (name : String) : List String :=
  (splitSegs name).filter (fun s => decide (s ≠ ""))

/-- path.join(folder, ...segs) against an absolute folder, as a segment
list: join normalizes "." and ".." segments while concatenating. -/
def joinResolve (folder : List String) (segs : List String) :
    List String :=
  segs.foldl
    (fun acc s =>
      if s = "." then acc
      else if s = ".." then acc.dropLast
      else acc ++ [s])
    folder

/-- DiskIO.get(name), up to the construction of the DiskIOFile wrapper
(which is outside the modelled core; get additionally awaits the
wrapper's ready signal, an effect internal to the wrapper): clean the
caller-supplied relative path, resolve it against the folder root, and
refuse the sentinel file's own path. Returns the cleaned segment list
handed to the wrapper. -/
def get (folder : List String) (name : String) :
    Except String (List String) :=
  if joinResolve folder (cleanName name) = folder ++ ["diskio.dat"] then
    .error "The name is diskio storage file"
  else .ok (cleanName name)

/-- DiskIO.getSync(name): the blocking variant, which skips only the
await of the wrapper's ready signal. -/
def getSync (folder : List String) (name : String) :
    Except String (List String) :=
  if joinResolve folder (cleanName name) = folder ++ ["diskio.dat"] then
    .error "The name is diskio storage file"
  else .ok (cleanName name)

/-- DiskIO.stabilizeSync: the blocking variant of stabilize, built on
existsSync / writeFileSync / statSync / execSync / truncateSync; the
arithmetic and the truncate clamping are those of the async variant. -/
def stabilizeSync (expected : Nat) (s : RState) : RState :=
  let sent0 : Nat := if s.sentExists then s.sent else 0
  let folderUsage : Nat := s.real + sent0
  let difference : Int :=
    (expected : Int) - (folderUsage : Int) + (sent0 : Int)
  { real := s.real, sent := difference.toNat, sentExists := true }

/-- Full per-instance state touched by create: the folder tree plus the
reservation quantities. -/
structure SState where
  fs : FS
  real : Nat
  sent : Nat
  sentExists : Bool
  deriving DecidableEq

/-- mkdir(path, recursive: true): creates every missing level of the
directory chain; each newly created directory adds `dirCost` bytes of
metadata to the du-reported usage. -/
def mkdirRec (dirCost : Nat) (s : SState) (path : Path) : SState :=
  let levels := (List.range path.length).map (fun i => path.take (i + 1))
  let newDirs := levels.filter (fun p => decide (p ∉ s.fs.dirs))
  { s with
    fs := { s.fs with dirs := s.fs.dirs ++ newDirs },
    real := s.real + dirCost * newDirs.length }

def stabilizeIn (expected : Nat) (s : SState) : SState :=
  let r := stabilize expected ⟨s.real, s.sent, s.sentExists⟩
  { s with real := r.real, sent := r.sent, sentExists := r.sentExists }

def stabilizeSyncIn (expected : Nat) (s : SState) : SState :=
  let r := stabilizeSync expected ⟨s.real, s.sent, s.sentExists⟩
  { s with real := r.real, sent := r.sent, sentExists := r.sentExists }

/-- filePath.replace(this.path.folder, ''): the managed-root-relative
path of the new file as a string, slash-prefixed segment by segment. -/
def pathToString (p : Path) : String :=
  p.foldl (fun acc s => acc ++ "/" ++ s) ""

/-- DiskIO.create(name): validate the name, shard a directory path from
the next generated UUID (supplied here as its 5 split segments), mkdir
it recursively, retry on a path collision with a fresh UUID (the fuel
list stands for the stream of generated UUIDs; the code recurses
unboundedly), create the empty file, re-stabilize, and resolve the new
file through get. -/
def create (folder : List String) (dirCost C : Nat) (name : String) :
    List Path → SState → Except String (SState × List String)
  | [], _ => .error "uuid supply exhausted"
  | uuid :: rest, s =>
    if name.length = 0 then .error "The name is empty"
    else
      let s1 := mkdirRec dirCost s uuid
      let filePath := uuid ++ [name]
      if filePath ∈ s1.fs.files ∨ filePath ∈ s1.fs.dirs then
        create folder dirCost C name rest s1
      else
        let s2 :=
          { s1 with fs := { s1.fs with files := s1.fs.files ++ [filePath] } }
        let s3 := stabilizeIn C s2
        match get folder (pathToString filePath) with
        | .error e => .error e
        | .ok cleaned => .ok (s3, cleaned)

/-- DiskIO.createSync(name): the blocking variant, identical step for
step but through mkdirSync / existsSync / writeFileSync, stabilizeSync
and getSync. -/
def createSync (folder : List String) (dirCost C : Nat) (name : String) :
    List Path → SState → Except String (SState × List String)
  | [], _ => .error "uuid supply exhausted"
  | uuid :: rest, s =>
    if name.length = 0 then .error "The name is empty"
    else
      let s1 := mkdirRec dirCost s uuid
      let filePath := uuid ++ [name]
      if filePath ∈ s1.fs.files ∨ filePath ∈ s1.fs.dirs then
        createSync folder dirCost C name rest s1
      else
        let s2 :=
          { s1 with fs := { s1.fs with files := s1.fs.files ++ [filePath] } }
        let s3 := stabilizeSyncIn C s2
        match getSync folder (pathToString filePath) with
        | .error e => .error e
        | .ok cleaned => .ok (s3, cleaned)

/-! Helper lemmas. -/

theorem stabilize_real (C : Nat) (s : RState) :
    (stabilize C s).real = s.real := rfl

theorem stabilize_sent (C : Nat) (s : RState) :
    (stabilize C s).sent = C - s.real := by
  obtain ⟨r, n, e⟩ := s
  cases e <;> (simp [stabilize]; try omega)

theorem runOps_stabilized (C : Nat) (ops : List Op) :
    ∀ s : RState, s.sent = C - s.real →
      (runOps C s ops).sent = C - (runOps C s ops).real := by
  induction ops with
  | nil => intro s h; simpa [runOps] using h
  | cons op rest ih =>
    intro s h
    simp only [runOps]
    apply ih
    cases op with
    | create g =>
      simp only [applyOp, stabilize_sent, stabilize_real]
    | delete d =>
      simp only [applyOp, stabilize_sent, stabilize_real]

theorem ceilDiv_zero_left (b : Nat) : ceilDiv 0 b = 0 := by
  unfold ceilDiv
  rcases Nat.eq_zero_or_pos b with h | h
  · simp [h]
  · exact Nat.div_eq_of_lt (by omega)

theorem le_ceilDiv_mul (a b : Nat) (hb : 0 < b) : a ≤ ceilDiv a b * b := by
  unfold ceilDiv
  have hd := Nat.div_add_mod (a + b - 1) b
  have hm := Nat.mod_lt (a + b - 1) hb
  rw [Nat.mul_comm]
  omega

theorem mul_lt_of_lt_ceilDiv (a b j : Nat) (hb : 0 < b)
    (hj : j < ceilDiv a b) : j * b < a := by
  unfold ceilDiv at hj
  rcases Nat.eq_zero_or_pos a with ha | ha
  · subst ha
    have h0 : (0 + b - 1) / b = 0 := Nat.div_eq_of_lt (by omega)
    omega
  · have hd := Nat.div_add_mod (a + b - 1) b
    have hm := Nat.mod_lt (a + b - 1) hb
    have hmul : b * (j + 1) ≤ b * ((a + b - 1) / b) :=
      Nat.mul_le_mul_left b (Nat.succ_le_of_lt hj)
    rw [Nat.mul_succ] at hmul
    rw [Nat.mul_comm]
    omega

theorem bytesToWrite_eq (opt L bs : Nat) (h : bs < L) :
    bytesToWrite opt L bs = ((min opt (L - bs) : Nat) : Int) := by
  unfold bytesToWrite
  split <;> omega

theorem bytesToRead_eq (opt L bs : Nat) (h : bs < L) :
    bytesToRead opt L bs = ((min opt (L - bs) : Nat) : Int) := by
  unfold bytesToRead
  split <;> omega

theorem fhWrite_ok_nat (file data : FileData) (offset m pos : Nat)
    (h1 : offset ≤ data.length) (h2 : m ≤ data.length - offset)
    (hpos : pos ≤ file.length) :
    fhWrite file data offset ((m : Nat) : Int) pos
      = .ok (file.take pos ++ (data.drop offset).take m
          ++ file.drop (pos + m)) := by
  have hb : ((data.drop offset).take m).length = m := by
    simp only [List.length_take, List.length_drop]
    omega
  unfold fhWrite fileSplice
  rw [if_neg (by omega), if_neg (by omega), if_neg (by omega)]
  rw [Int.toNat_natCast, Nat.sub_eq_zero_of_le hpos, hb]
  simp [List.append_assoc]

theorem fhRead_ok_nat (buffer file : FileData) (offset m pos : Nat)
    (h1 : offset ≤ buffer.length) (h2 : m ≤ buffer.length - offset)
    (h3 : m ≤ file.length - pos) (hpos2 : pos ≤ file.length) :
    fhRead buffer file offset ((m : Nat) : Int) pos
      = .ok (buffer.take offset ++ (file.drop pos).take m
          ++ buffer.drop (offset + m)) := by
  have hb : ((file.drop pos).take m).length = m := by
    simp only [List.length_take, List.length_drop]
    omega
  unfold fhRead fileSplice
  rw [if_neg (by omega), if_neg (by omega), if_neg (by omega)]
  rw [Int.toNat_natCast, Nat.sub_eq_zero_of_le h1, hb]
  simp [List.append_assoc]

theorem chunk_shift (file data : FileData) (bs opt : Nat)
    (hlen : file.length = data.length) (hbs : bs < data.length) :
    (file.take bs ++ (data.drop bs).take (min opt (data.length - bs))
        ++ file.drop (bs + min opt (data.length - bs))).take (bs + opt)
      ++ data.drop (bs + opt)
      = file.take bs ++ data.drop bs := by
  rcases le_or_lt data.length (bs + opt) with hcase | hcase
  · have hm : min opt (data.length - bs) = data.length - bs :=
      min_eq_right (by omega)
    rw [hm]
    have h1 : List.take (data.length - bs) (List.drop bs data)
        = List.drop bs data :=
      List.take_of_length_le (by simp only [List.length_drop]; omega)
    have h2 : List.drop (bs + (data.length - bs)) file = [] :=
      List.drop_eq_nil_of_le (by omega)
    have h3 : List.drop (bs + opt) data = [] :=
      List.drop_eq_nil_of_le (by omega)
    rw [h1, h2, h3, List.append_nil, List.append_nil]
    exact List.take_of_length_le
      (by simp only [List.length_append, List.length_take,
            List.length_drop]; omega)
  · have hm : min opt (data.length - bs) = opt := min_eq_left (by omega)
    rw [hm]
    have hX : (List.take bs file).length = bs := by
      simp only [List.length_take]
      omega
    have hY : (List.take opt (List.drop bs data)).length = opt := by
      simp only [List.length_take, List.length_drop]
      omega
    have hXY : (List.take bs file ++ List.take opt (List.drop bs data)).length
        = bs + opt := by
      simp only [List.length_append, hX, hY]
    rw [List.take_append_eq_append_take, hXY, Nat.sub_self, List.take_zero,
      List.append_nil]
    rw [List.take_append_eq_append_take, hX]
    rw [List.take_take, min_eq_right (by omega : bs ≤ bs + opt)]
    rw [Nat.add_sub_cancel_left]
    rw [List.take_take, min_self]
    rw [List.append_assoc]
    congr 1
    rw [← List.drop_drop, List.take_append_drop]

theorem writeChunks_tile (opt : Nat) (data : FileData) :
    ∀ (count idx : Nat) (file : FileData),
      file.length = data.length →
      data.length ≤ (idx + count) * opt →
      (∀ j, j < count → (idx + j) * opt < data.length) →
      writeChunks opt data 0 count idx file
        = .ok (file.take (idx * opt) ++ data.drop (idx * opt)) := by
  intro count
  induction count with
  | zero =>
    intro idx file hlen hcov _
    have hle : data.length ≤ idx * opt := by simpa using hcov
    rw [writeChunks, List.take_of_length_le (by omega),
      List.drop_eq_nil_of_le hle, List.append_nil]
  | succ c ih =>
    intro idx file hlen hcov hlt
    have hbs : idx * opt < data.length := by
      have h0 := hlt 0 (Nat.succ_pos c)
      simpa using h0
    rw [writeChunks]
    simp only [Nat.zero_add]
    rw [bytesToWrite_eq opt data.length (idx * opt) hbs]
    rw [fhWrite_ok_nat file data (idx * opt) (min opt (data.length - idx * opt))
      (idx * opt) (by omega) (by omega) (by omega)]
    show writeChunks opt data 0 c (idx + 1)
        (file.take (idx * opt)
          ++ (data.drop (idx * opt)).take (min opt (data.length - idx * opt))
          ++ file.drop (idx * opt + min opt (data.length - idx * opt)))
      = Except.ok (file.take (idx * opt) ++ data.drop (idx * opt))
    have hlen2 : (file.take (idx * opt)
        ++ (data.drop (idx * opt)).take (min opt (data.length - idx * opt))
        ++ file.drop (idx * opt + min opt (data.length - idx * opt))).length
        = data.length := by
      simp only [List.length_append, List.length_take, List.length_drop]
      omega
    rw [ih (idx + 1) _ hlen2
      (by rw [show idx + 1 + c = idx + (c + 1) from by omega]; exact hcov)
      (fun j hj => by
        have := hlt (j + 1) (by omega)
        rw [show idx + 1 + j = idx + (j + 1) from by omega]
        exact this)]
    rw [show (idx + 1) * opt = idx * opt + opt from by ring]
    rw [chunk_shift file data (idx * opt) opt hlen hbs]

theorem readChunks_tile (opt : Nat) (file : FileData) :
    ∀ (count idx : Nat) (buffer : FileData),
      buffer.length = file.length →
      file.length ≤ (idx + count) * opt →
      (∀ j, j < count → (idx + j) * opt < file.length) →
      readChunks opt file 0 count idx buffer
        = .ok (buffer.take (idx * opt) ++ file.drop (idx * opt)) := by
  intro count
  induction count with
  | zero =>
    intro idx buffer hlen hcov _
    have hle : file.length ≤ idx * opt := by simpa using hcov
    rw [readChunks, List.take_of_length_le (by omega),
      List.drop_eq_nil_of_le hle, List.append_nil]
  | succ c ih =>
    intro idx buffer hlen hcov hlt
    have hbs : idx * opt < file.length := by
      have h0 := hlt 0 (Nat.succ_pos c)
      simpa using h0
    rw [readChunks]
    simp only [Nat.zero_add]
    rw [bytesToRead_eq opt file.length (idx * opt) hbs]
    rw [fhRead_ok_nat buffer file (idx * opt)
      (min opt (file.length - idx * opt)) (idx * opt)
      (by omega) (by omega) (by omega) (by omega)]
    show readChunks opt file 0 c (idx + 1)
        (buffer.take (idx * opt)
          ++ (file.drop (idx * opt)).take (min opt (file.length - idx * opt))
          ++ buffer.drop (idx * opt + min opt (file.length - idx * opt)))
      = Except.ok (buffer.take (idx * opt) ++ file.drop (idx * opt))
    have hlen2 : (buffer.take (idx * opt)
        ++ (file.drop (idx * opt)).take (min opt (file.length - idx * opt))
        ++ buffer.drop (idx * opt + min opt (file.length - idx * opt))).length
        = file.length := by
      simp only [List.length_append, List.length_take, List.length_drop]
      omega
    rw [ih (idx + 1) _ hlen2
      (by rw [show idx + 1 + c = idx + (c + 1) from by omega]; exact hcov)
      (fun j hj => by
        have := hlt (j + 1) (by omega)
        rw [show idx + 1 + j = idx + (j + 1) from by omega]
        exact this)]
    rw [show (idx + 1) * opt = idx * opt + opt from by ring]
    rw [chunk_shift buffer file (idx * opt) opt hlen hbs]

/-! Claim theorems. -/

/-- C1 counterexample: on a freshly constructed ready instance with
capacity 1,048,576 and block size 4096 (initial non-sentinel usage 4096
bytes), the quantities reported by reservationReport satisfy
used + available = 1,048,576 while size = 1,044,480, so the claimed
identity used + available = size is false. -/
theorem c1_counterexample :
    ¬ ((informationDiskio 1048576 4096
          (runOps 1048576 (stabilize 1048576 ⟨4096, 0, false⟩) [])).used
        + (informationDiskio 1048576 4096
            (runOps 1048576 (stabilize 1048576 ⟨4096, 0, false⟩) [])).available
        = (informationDiskio 1048576 4096
            (runOps 1048576 (stabilize 1048576 ⟨4096, 0, false⟩) [])).size) := by
  decide

/-- C1 (amended): after any sequence of create/delete calls on a ready
instance whose real usage has not exceeded the capacity,
reservationReport().size = reservedCapacity - blockSize, and
reservationReport().used + reservationReport().available equals the
reserved capacity itself (that is, size + blockSize), not size. -/
theorem c1_reservation_sum (C B real0 : Nat) (ops : List Op)
    (h : (runOps C (stabilize C ⟨real0, 0, false⟩) ops).real ≤ C) :
    (informationDiskio C B (runOps C (stabilize C ⟨real0, 0, false⟩) ops)).size
      = (C : Int) - (B : Int) ∧
    (informationDiskio C B (runOps C (stabilize C ⟨real0, 0, false⟩) ops)).used
      + (informationDiskio C B
          (runOps C (stabilize C ⟨real0, 0, false⟩) ops)).available
      = (C : Int) := by
  have hinv := runOps_stabilized C ops (stabilize C ⟨real0, 0, false⟩)
    (stabilize_sent C ⟨real0, 0, false⟩)
  refine ⟨rfl, ?_⟩
  show ((((runOps C (stabilize C ⟨real0, 0, false⟩) ops).real
        + (runOps C (stabilize C ⟨real0, 0, false⟩) ops).sent : Nat) : Int)
      - ((runOps C (stabilize C ⟨real0, 0, false⟩) ops).sent : Int))
      + ((runOps C (stabilize C ⟨real0, 0, false⟩) ops).sent : Int) = (C : Int)
  omega

/-- C1 witness: a concrete run (capacity 1,048,576, block size 4096,
one create adding 100 metadata bytes) satisfying the amended claim. -/
theorem c1_witness :
    (runOps 1048576 (stabilize 1048576 ⟨4096, 0, false⟩)
        [Op.create 100]).real ≤ 1048576 ∧
    ((informationDiskio 1048576 4096
        (runOps 1048576 (stabilize 1048576 ⟨4096, 0, false⟩)
          [Op.create 100])).size = (1048576 : Int) - (4096 : Int) ∧
      (informationDiskio 1048576 4096
          (runOps 1048576 (stabilize 1048576 ⟨4096, 0, false⟩)
            [Op.create 100])).used
        + (informationDiskio 1048576 4096
            (runOps 1048576 (stabilize 1048576 ⟨4096, 0, false⟩)
              [Op.create 100])).available = (1048576 : Int)) :=
  ⟨by decide, c1_reservation_sum 1048576 4096 4096 [Op.create 100] (by decide)⟩

/-- C2 failing input: a write of 5 bytes at position 10 with 100 bytes
remaining. The admission check passes (5 <= 100) and the sentinel is
truncated to 95, yet the single chunk write calls FileHandle.write with
buffer offset 10 on a 5-byte buffer and fails with a range error, so the
write does not succeed even though s <= remaining() held beforehand, and
the failure is not an InsufficientSpaceError yet leaves the sentinel
charged. -/
theorem c2_write_admission_bug :
    ([1, 2, 3, 4, 5] : FileData).length ≤ 100 ∧
    write 4096 100 (List.replicate 20 0) [1, 2, 3, 4, 5] 10
      = (95, .error "offset out of range") :=
  ⟨by decide, rfl⟩

/-- C3 counterexample: with expected capacity 10, real usage 20 and
sentinel size 5, the recomputed difference 10 - 25 + 5 = -10 is
negative, yet stabilize returns normally with the sentinel resized to 0
(Node's truncate clamps a negative length) instead of failing with a
ReservationError. -/
theorem c3_counterexample :
    stabilize 10 ⟨20, 5, true⟩ = ⟨20, 0, true⟩ ∧
    (10 : Int) - ((20 + 5 : Nat) : Int) + ((5 : Nat) : Int) < 0 :=
  ⟨rfl, by decide⟩

/-- C3 (amended): stabilize(expected) recomputes
difference = expected - folderUsage + sentinelSize and resizes the
sentinel to that length, creating it at zero length first if absent;
whenever the difference is negative the sentinel is silently resized to
length 0 (the negative length is clamped), with no error raised. -/
theorem c3_stabilize_clamps (expected : Nat) (s : RState) :
    stabilize expected s =
      { real := s.real,
        sent := ((expected : Int)
          - ((s.real + (if s.sentExists then s.sent else 0) : Nat) : Int)
          + ((if s.sentExists then s.sent else 0 : Nat) : Int)).toNat,
        sentExists := true } ∧
    ((expected : Int)
        - ((s.real + (if s.sentExists then s.sent else 0) : Nat) : Int)
        + ((if s.sentExists then s.sent else 0 : Nat) : Int) < 0 →
      stabilize expected s = { real := s.real, sent := 0, sentExists := true }) := by
  refine ⟨rfl, fun h => ?_⟩
  have h0 : ((expected : Int)
      - ((s.real + (if s.sentExists then s.sent else 0) : Nat) : Int)
      + ((if s.sentExists then s.sent else 0 : Nat) : Int)).toNat = 0 :=
    Int.toNat_eq_zero.mpr (le_of_lt h)
  calc stabilize expected s
      = { real := s.real,
          sent := ((expected : Int)
            - ((s.real + (if s.sentExists then s.sent else 0) : Nat) : Int)
            + ((if s.sentExists then s.sent else 0 : Nat) : Int)).toNat,
          sentExists := true } := rfl
    _ = { real := s.real, sent := 0, sentExists := true } := by rw [h0]

/-- C3 witness: the amended claim applied at the concrete negative
difference 10 - 25 + 5 = -10. -/
theorem c3_witness :
    stabilize 10 ⟨20, 5, true⟩ = ⟨20, 0, true⟩ :=
  (c3_stabilize_clamps 10 ⟨20, 5, true⟩).2 (by decide)

/-- C4: reservationReport returns size = reservedCapacity - blockSize,
available = the sentinel's current size, used = folderUsage - available,
and capacity = round(100 - (used / size) * 100), all derived from the
current state on each call; with capacity 1,048,576 and block size 4096
the reported size is 1,044,480. -/
theorem c4_reservation_report (C B : Nat) (s : RState) :
    (informationDiskio C B s).size = (C : Int) - (B : Int) ∧
    (informationDiskio C B s).available = (s.sent : Int) ∧
    (informationDiskio C B s).used
      = ((s.real + s.sent : Nat) : Int) - (s.sent : Int) ∧
    (informationDiskio C B s).capacity
      = round ((100 : ℚ)
          - (((((s.real + s.sent : Nat) : Int) - (s.sent : Int) : Int) : ℚ)
              / (((C : Int) - (B : Int) : Int) : ℚ)) * 100) ∧
    (informationDiskio 1048576 4096 s).size = 1044480 := by
  refine ⟨rfl, rfl, rfl, rfl, ?_⟩
  show (1048576 : Int) - (4096 : Int) = 1044480
  decide

/-- C5 failing input: block size 4096, data [10,20,30,40,50] written at
position 1 into a six-byte file of 9s with 100 bytes remaining. The
single chunk passes position 1 as the buffer offset too, so the code
writes data bytes 1..4 to file offsets 1..4 and never writes data[0]:
the result differs from the claimed result, data placed at offsets
1..5. -/
theorem c5_write_chunks_bug :
    write 4096 100 (List.replicate 6 9) [10, 20, 30, 40, 50] 1
      = (95, .ok [9, 20, 30, 40, 50, 9]) ∧
    ([9, 20, 30, 40, 50, 9] : FileData)
      ≠ (List.replicate 6 9).take 1 ++ [10, 20, 30, 40, 50]
        ++ (List.replicate 6 9).drop 6 :=
  ⟨rfl, by decide⟩

/-- C6 counterexample: block size 4, buffer B = [1,2,3], file of six
9-bytes (size 6 >= 3, with 3 both smaller than and not a multiple of the
block size). The write at offset 0 succeeds, but reading [0, 3) computes
a chunk length clipped only against the file size (4, since 0 + 4 <= 6)
which exceeds the 3-byte destination buffer, so the read fails with a
range error instead of returning B. -/
theorem c6_counterexample :
    write 4 100 (List.replicate 6 9) [1, 2, 3] 0
      = (97, .ok [1, 2, 3, 9, 9, 9]) ∧
    read 4 [1, 2, 3, 9, 9, 9] 0 3 = .error "length out of range" :=
  ⟨rfl, rfl⟩

/-- C6 (amended): for every buffer B and every file of size exactly
len(B), writing B at offset 0 and then reading [0, len(B)) returns B,
including when len(B) is smaller than the block size and when len(B) is
not a multiple of the block size. -/
theorem c6_roundtrip_exact (opt sent : Nat) (file data : FileData)
    (hopt : 0 < opt) (hlen : file.length = data.length)
    (hsent : data.length ≤ sent) :
    write opt sent file data 0 = (sent - data.length, .ok data) ∧
    read opt data 0 data.length = .ok data := by
  constructor
  · unfold write allocate
    rw [if_neg (by omega)]
    show (sent - data.length,
        writeChunks opt data 0 (ceilDiv data.length opt) 0 file)
      = (sent - data.length, Except.ok data)
    rw [writeChunks_tile opt data (ceilDiv data.length opt) 0 file hlen
      (by simpa using le_ceilDiv_mul data.length opt hopt)
      (fun j hj => by
        simpa using mul_lt_of_lt_ceilDiv data.length opt j hopt hj)]
    simp
  · unfold read
    simp only [Nat.sub_zero]
    rw [readChunks_tile opt data (ceilDiv data.length opt) 0
      (List.replicate data.length 0) (by simp)
      (by simpa using le_ceilDiv_mul data.length opt hopt)
      (fun j hj => by
        simpa using mul_lt_of_lt_ceilDiv data.length opt j hopt hj)]
    simp

/-- C6 witness: block size 4, B = [1,2,3] (shorter than a block and not
a multiple of it), file [9,9,9] of size len(B), 100 bytes remaining. -/
theorem c6_witness :
    (0 < 4 ∧ ([9, 9, 9] : FileData).length = ([1, 2, 3] : FileData).length
      ∧ ([1, 2, 3] : FileData).length ≤ 100) ∧
    (write 4 100 [9, 9, 9] [1, 2, 3] 0
        = (100 - ([1, 2, 3] : FileData).length, .ok [1, 2, 3]) ∧
      read 4 [1, 2, 3] 0 ([1, 2, 3] : FileData).length = .ok [1, 2, 3]) :=
  ⟨⟨by decide, by decide, by decide⟩,
    c6_roundtrip_exact 4 100 [9, 9, 9] [1, 2, 3]
      (by decide) (by decide) (by decide)⟩

/-- C8: get(name) strips empty slash-separated segments, resolves the
rest against the folder root, and fails with a ReservedNameError exactly
when the resolved path equals the sentinel file's path; in particular
the names "diskio.dat", "/diskio.dat" and "//diskio.dat/" are all
refused, while an ordinary name like "a/b.txt" resolves normally. -/
theorem c8_get_reserved_name (folder : List String) :
    (∀ name, get folder name = .error "The name is diskio storage file" ↔
      joinResolve folder (cleanName name) = folder ++ ["diskio.dat"]) ∧
    get folder "diskio.dat" = .error "The name is diskio storage file" ∧
    get folder "/diskio.dat" = .error "The name is diskio storage file" ∧
    get folder "//diskio.dat/" = .error "The name is diskio storage file" ∧
    get folder "a/b.txt" = .ok ["a", "b.txt"] := by
  have hiff : ∀ name,
      get folder name = .error "The name is diskio storage file" ↔
        joinResolve folder (cleanName name) = folder ++ ["diskio.dat"] := by
    intro name
    unfold get
    split
    · simp_all
    · simp_all
  have hj : joinResolve folder ["diskio.dat"] = folder ++ ["diskio.dat"] := by
    simp [joinResolve]
  have hne : folder ++ ["a", "b.txt"] ≠ folder ++ ["diskio.dat"] := by
    simp
  refine ⟨hiff, ?_, ?_, ?_, ?_⟩
  · exact (hiff "diskio.dat").mpr
      (by rw [show cleanName "diskio.dat" = ["diskio.dat"] from by decide, hj])
  · exact (hiff "/diskio.dat").mpr
      (by rw [show cleanName "/diskio.dat" = ["diskio.dat"] from by decide, hj])
  · exact (hiff "//diskio.dat/").mpr
      (by rw [show cleanName "//diskio.dat/" = ["diskio.dat"] from by decide,
        hj])
  · unfold get
    rw [show cleanName "a/b.txt" = ["a", "b.txt"] from by decide]
    rw [if_neg (by simp [joinResolve])]

/-- C7: delete closes the handle, unlinks the leaf, then prunes empty
parent directories bottom-up. With the sentinel at the folder root:
deleting the only file under its 5-segment chain removes every
now-empty ancestor directory and stops at the (non-empty) folder root,
which is never removed; deleting one of two sibling files removes
nothing above the leaf. The event trace records the order: close, then
unlink, then the rmdirs from the leaf's directory upward. -/
theorem c7_delete_cascade (a b c d e f g : String)
    (ha : a ≠ "") (hb : b ≠ "") (hc : c ≠ "") (hd : d ≠ "") (he : e ≠ "")
    (hf : f ≠ "") (hg : g ≠ f) :
    delete ⟨[[a, b, c, d, e, f], ["diskio.dat"]],
        [[a], [a, b], [a, b, c], [a, b, c, d], [a, b, c, d, e]]⟩
      [a, b, c, d, e, f]
    = (⟨[["diskio.dat"]], []⟩,
        [FsEvent.close, FsEvent.unlink [a, b, c, d, e, f],
          FsEvent.rmdir [a, b, c, d, e], FsEvent.rmdir [a, b, c, d],
          FsEvent.rmdir [a, b, c], FsEvent.rmdir [a, b],
          FsEvent.rmdir [a]]) ∧
    delete ⟨[[a, b, c, d, e, f], [a, b, c, d, e, g], ["diskio.dat"]],
        [[a], [a, b], [a, b, c], [a, b, c, d], [a, b, c, d, e]]⟩
      [a, b, c, d, e, f]
    = (⟨[[a, b, c, d, e, g], ["diskio.dat"]],
        [[a], [a, b], [a, b, c], [a, b, c, d], [a, b, c, d, e]]⟩,
        [FsEvent.close, FsEvent.unlink [a, b, c, d, e, f]]) := by
  constructor
  · simp [delete, walkUp, removeFile, removeDir, hasEntries, isChildOf,
      ha, hb, hc, hd, he, hf, List.filter]
  · simp [delete, walkUp, removeFile, removeDir, hasEntries, isChildOf,
      hf, hg, List.filter]

/-- C7 witness: the two scenarios at concrete segment names. -/
theorem c7_witness :
    (("a" : String) ≠ "" ∧ ("b" : String) ≠ "" ∧ ("c" : String) ≠ ""
      ∧ ("d" : String) ≠ "" ∧ ("e" : String) ≠ ""
      ∧ ("f.txt" : String) ≠ "" ∧ ("g.txt" : String) ≠ "f.txt") ∧
    (delete ⟨[["a", "b", "c", "d", "e", "f.txt"], ["diskio.dat"]],
        [["a"], ["a", "b"], ["a", "b", "c"], ["a", "b", "c", "d"],
          ["a", "b", "c", "d", "e"]]⟩
      ["a", "b", "c", "d", "e", "f.txt"]
    = (⟨[["diskio.dat"]], []⟩,
        [FsEvent.close, FsEvent.unlink ["a", "b", "c", "d", "e", "f.txt"],
          FsEvent.rmdir ["a", "b", "c", "d", "e"],
          FsEvent.rmdir ["a", "b", "c", "d"], FsEvent.rmdir ["a", "b", "c"],
          FsEvent.rmdir ["a", "b"], FsEvent.rmdir ["a"]]) ∧
    delete ⟨[["a", "b", "c", "d", "e", "f.txt"],
        ["a", "b", "c", "d", "e", "g.txt"], ["diskio.dat"]],
        [["a"], ["a", "b"], ["a", "b", "c"], ["a", "b", "c", "d"],
          ["a", "b", "c", "d", "e"]]⟩
      ["a", "b", "c", "d", "e", "f.txt"]
    = (⟨[["a", "b", "c", "d", "e", "g.txt"], ["diskio.dat"]],
        [["a"], ["a", "b"], ["a", "b", "c"], ["a", "b", "c", "d"],
          ["a", "b", "c", "d", "e"]]⟩,
        [FsEvent.close,
          FsEvent.unlink ["a", "b", "c", "d", "e", "f.txt"]])) :=
  ⟨⟨by decide, by decide, by decide, by decide, by decide, by decide,
      by decide⟩,
    c7_delete_cascade "a" "b" "c" "d" "e" "f.txt" "g.txt"
      (by decide) (by decide) (by decide) (by decide) (by decide)
      (by decide) (by decide)⟩

/-- C9: each synchronous variant (stabilizeSync, getSync, createSync)
computes the same result and performs the same state changes as its
asynchronous counterpart (stabilize, get, create) on every input; in the
sequential embedding the two code paths are behaviorally identical (the
only async-only step, awaiting the file wrapper's ready signal in get,
is internal to the out-of-scope wrapper). -/
theorem c9_sync_async_equiv :
    (∀ expected s, stabilize expected s = stabilizeSync expected s) ∧
    (∀ folder name, get folder name = getSync folder name) ∧
    (∀ (folder : List String) (dirCost C : Nat) (name : String)
        (uuids : List Path) (s : SState),
      create folder dirCost C name uuids s
        = createSync folder dirCost C name uuids s) := by
  refine ⟨fun _ _ => rfl, fun _ _ => rfl,
    fun folder dirCost C name uuids s => ?_⟩
  induction uuids generalizing s with
  | nil => rfl
  | cons u rest ih =>
    simp only [create, createSync]
    rw [ih, show get = getSync from rfl,
      show stabilizeIn = stabilizeSyncIn from rfl]

/-- C10: a zero-length write always passes the admission check, issues
zero chunk writes (ceil(0 / blockSize) = 0), leaves the target file
untouched and leaves the sentinel size unchanged, at every position. -/
theorem c10_write_empty (opt sent : Nat) (file : FileData) (position : Nat) :
    ceilDiv 0 opt = 0 ∧
    write opt sent file [] position = (sent, .ok file) := by
  refine ⟨ceilDiv_zero_left opt, ?_⟩
  simp [write, allocate, writeChunks, ceilDiv_zero_left]

end DiskIOModel
